import Mathlib

/-!
Verification of the audio-acquisition module of PAKE_Audio_STT.

This file shallowly embeds the Python sources under `src/acquisition/`
(`config.py`, `base.py`, `youtube.py`) into Lean and proves properties of
the embedding.  External effects (the filesystem and the `yt_dlp` library)
are modelled by an explicit environment value describing the behaviour the
outside world exhibits during one `download()` call.  Machine numbers
(durations, byte counts, speeds) are modelled as rationals; Python
truthiness of numbers and strings is made explicit (`x` is truthy iff
`x ≠ 0`, resp. `x ≠ ""`, resp. `x` is not `None`).
-/

namespace PAKE

/-! ## `src/acquisition/config.py` : `DownloadConfig` -/

/-- The `Literal["wav", "mp3", "m4a", "opus"]` type of `audio_format`. -/
inductive AudioFormat where
  | wav
  | mp3
  | m4a
  | opus
deriving DecidableEq, Repr

/-- The string a format value renders as (the Python value itself). -/
def AudioFormat.ext : AudioFormat → String
  | .wav => "wav"
  | .mp3 => "mp3"
  | .m4a => "m4a"
  | .opus => "opus"

/-- Embedding of the `DownloadConfig` dataclass (config.py lines 8-35),
with its declared field defaults. -/
structure DownloadConfig where
  audio_format : AudioFormat := .wav
  audio_quality : Nat := 192
  sample_rate : Option Nat := some 16000
  mono : Bool := true
  max_duration : Option ℚ := none
  filename_template : String := "{title}"
  embed_metadata : Bool := true
  cookies_from_browser : Option String := none
deriving DecidableEq, Repr

/-- The `@dataclass` decorator on `DownloadConfig` (config.py line 8) is
written without `frozen=True`, so Python permits attribute assignment on
instances after construction.  This constant records that declaration
fact. -/
def DownloadConfig.dataclassFrozen : Bool := false

/-- Attribute assignment `cfg.sample_rate = v`, which Python permits on the
non-frozen dataclass: the instance afterwards holds the new field value. -/
def DownloadConfig.assignSampleRate (c : DownloadConfig) (v : Option Nat) :
    DownloadConfig :=
  { c with sample_rate := v }

/-- Python truthiness of an `int | None` value. -/
def truthyNat : Option Nat → Bool
  | none => false
  | some n => n != 0

/-- Python truthiness of a `float | None` value (rational model; the
embedding has no NaN). -/
def truthyQ : Option ℚ → Bool
  | none => false
  | some q => q != 0

/-- Python truthiness of a `str | None` value. -/
def truthyStr : Option String → Bool
  | none => false
  | some s => s != ""

/-- One entry of the `postprocessors` list of the yt-dlp options dict. -/
structure PostProcessor where
  key : String
  preferredcodec : Option String := none
  preferredquality : Option String := none
deriving DecidableEq, Repr

/-- The options dict built by `DownloadConfig.to_yt_dlp_opts`
(config.py lines 37-74), one field per key the source can put in it.
`postprocessor_args` is `some args` when the key is present, holding the
value at its `"ffmpeg"` key; `cookiesfrombrowser` likewise. -/
structure YdlOpts where
  format : String
  postprocessors : List PostProcessor
  outtmpl : String
  quiet : Bool
  no_warnings : Bool
  user_agent : String
  cookiesfrombrowser : Option String
  postprocessor_args : Option (List String)
deriving DecidableEq, Repr

/-- Embedding of `DownloadConfig.to_yt_dlp_opts` (config.py lines 37-74). -/
def DownloadConfig.to_yt_dlp_opts (c : DownloadConfig) : YdlOpts :=
  { format := "bestaudio/best"
    postprocessors :=
      [{ key := "FFmpegExtractAudio"
         preferredcodec := some c.audio_format.ext
         preferredquality := some (toString c.audio_quality) }]
      ++ (if c.embed_metadata then [{ key := "FFmpegMetadata" }] else [])
    outtmpl := c.filename_template ++ ".%(ext)s"
    quiet := true
    no_warnings := true
    user_agent := "Mozilla/5.0 (Windows NT 10.0; Win64; x64) AppleWebKit/537.36 (KHTML, like Gecko) Chrome/120.0.0.0 Safari/537.36"
    cookiesfrombrowser :=
      if truthyStr c.cookies_from_browser then c.cookies_from_browser else none
    postprocessor_args :=
      if ((if truthyNat c.sample_rate then
              ["-ar", toString (c.sample_rate.getD 0)] else [])
          ++ (if c.mono then ["-ac", "1"] else [])).isEmpty
      then none
      else some
        ((if truthyNat c.sample_rate then
            ["-ar", toString (c.sample_rate.getD 0)] else [])
         ++ (if c.mono then ["-ac", "1"] else []))
  }

/-- The fields of a `YdlOpts` other than `postprocessor_args`, bundled, for
stating that an operation changes nothing but the post-processing
arguments. -/
def YdlOpts.framePart (o : YdlOpts) :
    String × List PostProcessor × String × Bool × Bool × String × Option String :=
  (o.format, o.postprocessors, o.outtmpl, o.quiet, o.no_warnings,
   o.user_agent, o.cookiesfrombrowser)

/-- The `PRESET_TRANSCRIPTION` preset (config.py lines 78-82). -/
def PRESET_TRANSCRIPTION : DownloadConfig :=
  { audio_format := .wav, sample_rate := some 16000, mono := true }

/-! ## `src/acquisition/youtube.py` : URL validation

The four entries of `YOUTUBE_PATTERNS` (youtube.py lines 28-33) use only a
small regex fragment: literal text, the two optional groups
`(?:https?://)?` and `(?:www\.)?`, and the capture `([a-zA-Z0-9_-]{11})`.
That fragment is embedded as a tiny pattern language with a backtracking
runner; `re.match` anchors at the start of the string only, so a match may
leave a remainder. -/

/-- A character of the class `[a-zA-Z0-9_-]` used by the video-id capture. -/
def idChar (c : Char) : Bool := c.isAlphanum || c = '_' || c = '-'

/-- Consume a literal off the front of the input, or fail. -/
def dropLit : List Char → List Char → Option (List Char)
  | [], s => some s
  | _ :: _, [] => none
  | c :: t, x :: s => if c = x then dropLit t s else none

/-- Consume exactly `n` characters of the class `[a-zA-Z0-9_-]`, or fail. -/
def dropCls : Nat → List Char → Option (List Char)
  | 0, s => some s
  | _ + 1, [] => none
  | n + 1, c :: s => if idChar c then dropCls n s else none

/-- The regex fragment the source patterns use: a literal, the
`{11}`-style character-class repetition, `(?:...)?`, and concatenation. -/
inductive RE where
  | lit (t : List Char)
  | cls (n : Nat)
  | opt (a : RE)
  | seq (a b : RE)

/-- Backtracking pattern runner in continuation style: `mrun p s k` is true
when `p` can consume some prefix of `s` leaving a remainder accepted by
`k`.  With `k := fun _ => true` this is Python's `re.match` viewed as a
boolean. -/
def mrun : RE → List Char → (List Char → Bool) → Bool
  | .lit t, s, k =>
    match dropLit t s with
    | some r => k r
    | none => false
  | .cls n, s, k =>
    match dropCls n s with
    | some r => k r
    | none => false
  | .opt a, s, k => mrun a s k || k s
  | .seq a b, s, k => mrun a s fun r => mrun b r k

/-- The `(?:https?://)?` group's body: `http`, optional `s`, `://`. -/
def schemeRE : RE :=
  .seq (.lit "http".toList) (.seq (.opt (.lit "s".toList)) (.lit "://".toList))

/-- The shared shape of all four source patterns: optional scheme, optional
`www.`, a host-and-path literal, then an 11-character video id (trailing
input is unconstrained, as under `re.match`). -/
def ytPattern (host : String) : RE :=
  .seq (.opt schemeRE)
    (.seq (.opt (.lit "www.".toList)) (.seq (.lit host.toList) (.cls 11)))

/-- The `YOUTUBE_PATTERNS` list (youtube.py lines 28-33). -/
def YOUTUBE_PATTERNS : List RE :=
  [ytPattern "youtube.com/watch?v=", ytPattern "youtu.be/",
   ytPattern "youtube.com/shorts/", ytPattern "youtube.com/live/"]

/-- Embedding of `YouTubeDownloader.validate_url` (youtube.py lines 49-51):
`any(re.match(pattern, url) for pattern in self.YOUTUBE_PATTERNS)`. -/
def validate_url (url : String) : Bool :=
  YOUTUBE_PATTERNS.any fun p => mrun p url.toList fun _ => true

/-- The spec-level reading of one accepted URL form: an optional scheme, an
optional `www.`, one of the four host-and-path forms, an 11-character
video id, arbitrary trailing text. -/
def SpecMatch (s : String) : Prop :=
  ∃ pre www host idc rest,
    pre ∈ ["https://", "http://", ""] ∧
    www ∈ ["www.", ""] ∧
    host ∈ ["youtube.com/watch?v=", "youtu.be/",
            "youtube.com/shorts/", "youtube.com/live/"] ∧
    idc.length = 11 ∧ (∀ c ∈ idc, idChar c = true) ∧
    s.toList = pre.toList ++ www.toList ++ host.toList ++ idc ++ rest

/-! ## `src/acquisition/base.py` : `DownloadResult`

The `downloaded_at : datetime` field (wall-clock time captured at
construction) is outside the embedding; no claim concerns it. -/

/-- The `metadata` dict built on the success path of `download()`
(youtube.py lines 159-165), one field per key. -/
structure Metadata where
  video_id : Option String := none
  uploader : Option String := none
  upload_date : Option String := none
  view_count : Option Int := none
  description : String := ""
deriving DecidableEq, Repr

/-- Embedding of the `DownloadResult` dataclass (base.py lines 11-26) with
its field defaults.  File paths are modelled as strings. -/
structure DownloadResult where
  success : Bool
  file_path : Option String := none
  title : Option String := none
  duration : Option ℚ := none
  source_url : Option String := none
  error_message : Option String := none
  metadata : Metadata := {}
deriving DecidableEq, Repr

/-! ## `src/acquisition/youtube.py` : the `download()` call

`download()` interacts with the outside world: the filesystem
(`output_dir.mkdir`, `expected_path.exists`, the glob fallback) and the
`yt_dlp` library (`extract_info`, `download`, `prepare_filename`, progress
hooks).  One call's worth of that outside behaviour is an explicit `Env`
value; `download` is then a pure function of the config, the arguments and
the environment. -/

/-- A Python exception of class `Exception`; `isDownloadError` marks
instances of `yt_dlp.utils.DownloadError`, the class the first `except`
clause catches.  `msg` is `str(e)`. -/
structure PyExn where
  isDownloadError : Bool
  msg : String
deriving DecidableEq, Repr

/-- The info mapping a successful probe returns, restricted to the keys
`download()` reads.  The keys the code reads with a non-`None` default —
`duration` (default 0), `title` (default `"unknown"`) and `description`
(default `""`, then sliced) — are two-level: `none` is an absent key,
`some none` a key present with the value `None` (yt-dlp stores such
values, e.g. `duration: None` for a live stream), `some (some v)` a key
present with a value.  The remaining keys are read with `info.get(key)`
and no default, where a present `None` and an absent key yield the same
value, so a single-level `Option` is exactly their value space. -/
structure VideoInfo where
  duration : Option (Option ℚ) := none
  title : Option (Option String) := none
  video_id : Option String := none
  uploader : Option String := none
  upload_date : Option String := none
  view_count : Option Int := none
  description : Option (Option String) := none
deriving DecidableEq, Repr

/-- Python's `info.get(key, default)` over a two-level field: an absent
key yields the default, a present key yields its stored value — which may
be `None`, in which case `None`, not the default, is returned. -/
def pyGet {α : Type} (field : Option (Option α)) (dflt : α) : Option α :=
  match field with
  | none => some dflt
  | some v => v

/-- One dict passed by yt-dlp to a registered progress hook, restricted to
the keys `_progress_hook` reads.  `none` models an absent key (or a present
`None`, which `d.get(key, 0) or ...` treats the same way). -/
structure HookDict where
  status : String
  total_bytes : Option ℚ := none
  total_bytes_estimate : Option ℚ := none
  downloaded_bytes : Option ℚ := none
  speed : Option ℚ := none
deriving DecidableEq, Repr

/-- The outside world's behaviour during one `download()` call. -/
structure Env where
  /-- Exception raised by `output_dir.mkdir(parents=True, exist_ok=True)`
  (youtube.py line 98), or `none` when it succeeds. -/
  mkdirError : Option PyExn := none
  /-- Outcome of `ydl.extract_info(url, download=False)` (line 104): an
  exception, or `None`, or an info mapping.  A failure constructing
  `yt_dlp.YoutubeDL` itself is subsumed here, since both sit inside the
  same `try` and skip the rest of the block. -/
  extractResult : Except PyExn (Option VideoInfo) := .ok none
  /-- Exception raised by `ydl.download([url])` (line 125), or `none`. -/
  transferError : Option PyExn := none
  /-- The hook dicts yt-dlp feeds to the registered progress hook during
  the transfer, in order (those that fired before any transfer error). -/
  hookEvents : List HookDict := []
  /-- The string `ydl.prepare_filename(info)` returns (line 129). -/
  preparedFilename : String := ""
  /-- Whether `expected_path.exists()` (line 132). -/
  expectedExists : Bool := false
  /-- The most-recently-modified file in `output_dir` matching
  `*.{audio_format}`, or `none` when the glob is empty (lines 134-138). -/
  newestMatching : Option String := none
deriving Repr

/-- Python's `s.rsplit(".", 1)[0]`: everything before the last dot, or the
whole string when it has no dot (youtube.py line 130). -/
def rsplitStem (s : String) : String :=
  if s.toList.contains '.' then
    String.mk (((s.toList.reverse.dropWhile (fun c => c ≠ '.')).drop 1).reverse)
  else s

/-- Rendering of a rational into an f-string, matching Python's rendering
of the integers all concrete claims use. -/
def ratStr (q : ℚ) : String :=
  if q.den = 1 then toString q.num else toString q.num ++ "/" ++ toString q.den

/-- The three ways the duration-gate expression (youtube.py line 111) can
go: the condition is false, the condition is true, or evaluating it raises. -/
inductive GateOutcome where
  | pass
  | reject
  | typeError
deriving DecidableEq, Repr

/-- The duration-gate condition (youtube.py line 111):
`self.config.max_duration and duration > self.config.max_duration`.  A
falsy `max_duration` (`None` or 0) short-circuits to pass without looking
at `duration`; otherwise the comparison runs, and since `duration` came
from `info.get("duration", 0)` it can be a present-`None`, in which case
`None > float` raises a `TypeError` (caught by the outer
`except Exception`). -/
def durationGate (maxDur : Option ℚ) (duration : Option ℚ) : GateOutcome :=
  match maxDur with
  | none => .pass
  | some m =>
    if m = 0 then .pass
    else
      match duration with
      | none => .typeError
      | some d => if d > m then .reject else .pass

/-- The `TypeError` raised by comparing a present-`None` duration with the
float `max_duration`, as `str(e)` renders it. -/
def cmpTypeError : PyExn :=
  { isDownloadError := false,
    msg := "'>' not supported between instances of 'NoneType' and 'float'" }

/-- The `TypeError` raised by `info.get("description", "")[:500]`
(youtube.py line 156) when the `description` key is present with `None`,
as `str(e)` renders it. -/
def sliceTypeError : PyExn :=
  { isDownloadError := false, msg := "'NoneType' object is not subscriptable" }

/-- The duration-gate failure message (youtube.py line 115). -/
def durationMsg (duration maxDur : ℚ) : String :=
  "Video duration (" ++ ratStr duration ++ "s) exceeds limit (" ++
    ratStr maxDur ++ "s)"

/-- The two `except` clauses (youtube.py lines 159-170): a
`DownloadError` maps to `"Download error: ..."`, any other `Exception` to
`"Unexpected error: ..."`; both produce a failure result. -/
def catchExn (url : String) (e : PyExn) : DownloadResult :=
  if e.isDownloadError then
    { success := false, source_url := some url,
      error_message := some ("Download error: " ++ e.msg) }
  else
    { success := false, source_url := some url,
      error_message := some ("Unexpected error: " ++ e.msg) }

/-- Checks that the needle is a prefix of the hay. -/
def litPre : List Char → List Char → Bool
  | [], _ => true
  | _ :: _, [] => false
  | c :: t, x :: s => c = x && litPre t s

/-- Checks that the needle occurs contiguously somewhere in the hay. -/
def hasSub (needle : List Char) : List Char → Bool
  | [] => needle.isEmpty
  | x :: t => litPre needle (x :: t) || hasSub needle t

/-- String form of `hasSub`: `strHas hay needle` is Python's
`needle in hay`. -/
def strHas (hay needle : String) : Bool := hasSub needle.toList hay.toList

/-- One decimal place, as Python's `f"{x:.1f}"` renders the nonnegative
speeds that occur (the model rounds ties up where CPython's float
formatting rounds to even; no claim depends on a tie). -/
def oneDecimal (q : ℚ) : String :=
  toString ((round (q * 10) : ℤ) / 10) ++ "." ++
    toString (((round (q * 10) : ℤ) % 10).natAbs)

/-- The transfer-rate string `f"{speed / 1024 / 1024:.1f} MB/s"`
(youtube.py line 180). -/
def fmtSpeed (speed : ℚ) : String := oneDecimal (speed / 1024 / 1024) ++ " MB/s"

/-- The denominator picked at youtube.py line 175:
`d.get("total_bytes") or d.get("total_bytes_estimate", 0)` — the
`total_bytes` value when present and truthy, else the estimate, else 0. -/
def hookTotal (d : HookDict) : ℚ :=
  if d.total_bytes.getD 0 ≠ 0 then d.total_bytes.getD 0
  else d.total_bytes_estimate.getD 0

/-- Embedding of `YouTubeDownloader._progress_hook` (youtube.py lines
172-189): the single `(progress, status)` report one hook dict produces,
or `none` when the hook reports nothing. -/
def progressHook (d : HookDict) : Option (ℚ × String) :=
  if d.status = "downloading" then
    if hookTotal d > 0 then
      some (5 + d.downloaded_bytes.getD 0 / hookTotal d * 85,
        "Downloading... " ++
          (if d.speed.getD 0 ≠ 0 then fmtSpeed (d.speed.getD 0) else "..."))
    else none
  else if d.status = "finished" then some (90, "Converting audio...")
  else none

/-- A hook dict whose byte counts are consistent: a nonnegative number of
downloaded bytes, not exceeding the total the hook denominates with
(yt-dlp guarantees this for an exact `total_bytes` but not for
`total_bytes_estimate`). -/
def HookSane (d : HookDict) : Prop :=
  0 ≤ d.downloaded_bytes.getD 0 ∧ d.downloaded_bytes.getD 0 ≤ hookTotal d

/-- A hook event whose byte counts are half transferred: total 10 bytes,
5 downloaded. -/
def hookHalf : HookDict :=
  { status := "downloading", total_bytes := some 10, downloaded_bytes := some 5 }

/-- A hook event in which yt-dlp reports more downloaded bytes (2) than
the total it denominated with (1), as can happen when the total is the
estimate `total_bytes_estimate`. -/
def hookOver : HookDict :=
  { status := "downloading", total_bytes := some 1, downloaded_bytes := some 2 }

/-- An environment whose probe succeeds with an empty info mapping and
whose transfer fires one consistent hook event. -/
def envHook : Env := { extractResult := .ok (some {}), hookEvents := [hookHalf] }

/-- An environment whose transfer fires one overshooting hook event. -/
def envOver : Env := { extractResult := .ok (some {}), hookEvents := [hookOver] }

/-- An info mapping as yt-dlp returns it for a live stream: the `duration`
and `title` keys are present but hold `None`. -/
def infoLive : VideoInfo := { duration := some none, title := some none }

/-- An environment that probes a live-stream info mapping and finds the
output file at its expected path. -/
def envLive : Env :=
  { extractResult := .ok (some infoLive), expectedExists := true,
    preparedFilename := "live.webm" }

/-- An info mapping with ordinary present values for duration and title. -/
def infoW : VideoInfo :=
  { duration := some (some 19), title := some (some "Me at the zoo") }

/-- An environment that probes `infoW` and finds the output file at its
expected path. -/
def envW : Env :=
  { extractResult := .ok (some infoW), expectedExists := true,
    preparedFilename := "Me at the zoo.webm" }

/-- How one `download()` call ends at its boundary: a returned
`DownloadResult`, or an exception propagating past it. -/
inductive Outcome where
  | ret (r : DownloadResult)
  | raise (e : PyExn)
deriving DecidableEq, Repr

/-- Everything observable about one `download()` call: its outcome, the
arguments of each progress-callback invocation in order, whether the media
transfer (`ydl.download([url])`, youtube.py line 125) was started, and the
value of the instance field `self._progress_callback` after the call
returns.  Callbacks are modelled as opaque tokens (`Nat`); `none` is
Python's `None`. -/
structure CallResult where
  outcome : Outcome
  reports : List (ℚ × String)
  transferStarted : Bool
  callbackAfter : Option Nat
deriving Repr

/-- Reports reach the caller only when a callback was supplied:
`_report_progress` (youtube.py lines 191-193) checks
`if self._progress_callback:`. -/
def reportIfSet (cb : Option Nat) (l : List (ℚ × String)) : List (ℚ × String) :=
  if cb.isSome then l else []

/-- The failure result of the URL fast-fail (youtube.py lines 92-96). -/
def invalidUrlResult (url : String) : DownloadResult :=
  { success := false, source_url := some url,
    error_message := some ("Invalid YouTube URL: " ++ url) }

/-- The failure result when the probe returns `None` (lines 106-110). -/
def noInfoResult (url : String) : DownloadResult :=
  { success := false, source_url := some url,
    error_message := some "Failed to extract video info" }

/-- The failure result of the duration gate (lines 112-117). -/
def overLimitResult (url : String) (duration maxDur : ℚ) : DownloadResult :=
  { success := false, source_url := some url,
    error_message := some (durationMsg duration maxDur) }

/-- The failure result when neither file-lookup strategy finds the output
file (lines 138-142). -/
def notFoundResult (url : String) : DownloadResult :=
  { success := false, source_url := some url,
    error_message := some "Downloaded file not found" }

/-- The success result (youtube.py lines 146-157).  `title` and `duration`
carry the Python locals of lines 110 and 128 — `info.get(...)` values that
are `None` exactly when the probe stored an explicit `None`.  `desc` is the
string `info.get("description", "")` evaluated to on this path (the
present-`None` case raises instead and never builds this record). -/
def successResult (url fp : String) (info : VideoInfo) (desc : String) :
    DownloadResult :=
  { success := true
    file_path := some fp
    title := pyGet info.title "unknown"
    duration := pyGet info.duration 0
    source_url := some url
    metadata :=
      { video_id := info.video_id
        uploader := info.uploader
        upload_date := info.upload_date
        view_count := info.view_count
        description := desc.take 500 } }

/-- The reports made before the transfer begins and during it. -/
def preTransferReports : List (ℚ × String) :=
  [(0, "Extracting video info...")]

/-- Reports once the transfer has been started: the two fixed marks plus
whatever the progress hook relayed for the fired hook events. -/
def transferReports (env : Env) : List (ℚ × String) :=
  [(0, "Extracting video info..."), (5, "Downloading audio...")]
    ++ env.hookEvents.filterMap progressHook

/-- Embedding of `YouTubeDownloader.download` (youtube.py lines 61-170),
branch for branch:

1. `self._progress_callback = progress_callback` (line 88) — the field
   holds the argument, and nothing later writes it, so it still does when
   the call ends (`callbackAfter`).
2. URL validation fast-fail (lines 91-96).
3. `output_dir.mkdir(...)` (line 98) sits before the `try`, so an
   exception it raises propagates (`Outcome.raise`).
4. Option building (lines 101-103) is pure and cannot fail.
5. Inside the `try`: the probe (lines 104-110), the duration gate (lines
   111-117, which raises a caught `TypeError` when a present-`None`
   duration meets a truthy `max_duration`), the transfer (lines 119-125),
   the file lookup (lines 127-142), the 100% report and the success
   result (lines 144-157, whose `description` slice raises a caught
   `TypeError` on a present-`None` description), and the two `except`
   clauses (lines 159-170). -/
def download (cfg : DownloadConfig) (url : String) (cb : Option Nat)
    (env : Env) : CallResult :=
  if validate_url url then
    match env.mkdirError with
    | some e =>
      { outcome := .raise e, reports := [], transferStarted := false,
        callbackAfter := cb }
    | none =>
      match env.extractResult with
      | .error e =>
        { outcome := .ret (catchExn url e)
          reports := reportIfSet cb preTransferReports
          transferStarted := false
          callbackAfter := cb }
      | .ok none =>
        { outcome := .ret (noInfoResult url)
          reports := reportIfSet cb preTransferReports
          transferStarted := false
          callbackAfter := cb }
      | .ok (some info) =>
        match durationGate cfg.max_duration (pyGet info.duration 0) with
        | .typeError =>
          { outcome := .ret (catchExn url cmpTypeError)
            reports := reportIfSet cb preTransferReports
            transferStarted := false
            callbackAfter := cb }
        | .reject =>
          { outcome := .ret (overLimitResult url
              ((pyGet info.duration 0).getD 0) (cfg.max_duration.getD 0))
            reports := reportIfSet cb preTransferReports
            transferStarted := false
            callbackAfter := cb }
        | .pass =>
          match env.transferError with
          | some e =>
            { outcome := .ret (catchExn url e)
              reports := reportIfSet cb (transferReports env)
              transferStarted := true
              callbackAfter := cb }
          | none =>
            match (if env.expectedExists then
                some (rsplitStem env.preparedFilename ++ "." ++
                  cfg.audio_format.ext)
              else env.newestMatching : Option String) with
            | none =>
              { outcome := .ret (notFoundResult url)
                reports := reportIfSet cb (transferReports env)
                transferStarted := true
                callbackAfter := cb }
            | some fp =>
              match pyGet info.description "" with
              | none =>
                { outcome := .ret (catchExn url sliceTypeError)
                  reports := reportIfSet cb
                    (transferReports env ++ [(100, "Download complete!")])
                  transferStarted := true
                  callbackAfter := cb }
              | some desc =>
                { outcome := .ret (successResult url fp info desc)
                  reports := reportIfSet cb
                    (transferReports env ++ [(100, "Download complete!")])
                  transferStarted := true
                  callbackAfter := cb }
  else
    { outcome := .ret (invalidUrlResult url), reports := [],
      transferStarted := false, callbackAfter := cb }

/-! ### Soundness and completeness of the pattern runner -/

lemma dropLit_sound (t : List Char) : ∀ s r, dropLit t s = some r → s = t ++ r := by
  induction t with
  | nil =>
    intro s r h
    simp only [dropLit, Option.some.injEq] at h
    simp [h]
  | cons c t ih =>
    intro s r h
    cases s with
    | nil => simp [dropLit] at h
    | cons x s' =>
      simp only [dropLit] at h
      split at h
      · next hcx =>
          have := ih s' r h
          simp [← hcx, this]
      · cases h

lemma dropLit_of_append (t r : List Char) : dropLit t (t ++ r) = some r := by
  induction t with
  | nil => rfl
  | cons c t ih => simp [dropLit, ih]

lemma dropCls_sound : ∀ (n : Nat) (s r : List Char), dropCls n s = some r →
    ∃ idc, idc.length = n ∧ (∀ c ∈ idc, idChar c = true) ∧ s = idc ++ r := by
  intro n
  induction n with
  | zero =>
    intro s r h
    simp only [dropCls, Option.some.injEq] at h
    exact ⟨[], rfl, by simp, by simp [h]⟩
  | succ n ih =>
    intro s r h
    cases s with
    | nil => simp [dropCls] at h
    | cons c s' =>
      simp only [dropCls] at h
      split at h
      · next hc =>
          obtain ⟨idc, hlen, hall, heq⟩ := ih s' r h
          refine ⟨c :: idc, by simp [hlen], ?_, by simp [heq]⟩
          intro x hx
          rcases List.mem_cons.mp hx with rfl | hx
          · exact hc
          · exact hall x hx
      · cases h

lemma dropCls_of_append (idc : List Char) (r : List Char)
    (hall : ∀ c ∈ idc, idChar c = true) :
    dropCls idc.length (idc ++ r) = some r := by
  induction idc with
  | nil => rfl
  | cons c t ih =>
    have hc : idChar c = true := hall c (by simp)
    simp only [List.length_cons, List.cons_append, dropCls, hc, if_true]
    exact ih fun x hx => hall x (by simp [hx])

lemma mrun_lit_iff (t s : List Char) (k : List Char → Bool) :
    mrun (.lit t) s k = true ↔ ∃ r, s = t ++ r ∧ k r = true := by
  constructor
  · intro h
    cases hd : dropLit t s with
    | none => simp [mrun, hd] at h
    | some r => exact ⟨r, dropLit_sound t s r hd, by simpa [mrun, hd] using h⟩
  · rintro ⟨r, rfl, hk⟩
    simp [mrun, dropLit_of_append, hk]

lemma mrun_cls_iff (n : Nat) (s : List Char) (k : List Char → Bool) :
    mrun (.cls n) s k = true ↔
    ∃ idc r, idc.length = n ∧ (∀ c ∈ idc, idChar c = true) ∧
      s = idc ++ r ∧ k r = true := by
  constructor
  · intro h
    cases hd : dropCls n s with
    | none => simp [mrun, hd] at h
    | some r =>
      obtain ⟨idc, hlen, hall, heq⟩ := dropCls_sound n s r hd
      exact ⟨idc, r, hlen, hall, heq, by simpa [mrun, hd] using h⟩
  · rintro ⟨idc, r, rfl, hall, rfl, hk⟩
    simp [mrun, dropCls_of_append idc r hall, hk]

lemma mrun_opt_iff (a : RE) (s : List Char) (k : List Char → Bool) :
    mrun (.opt a) s k = true ↔ (mrun a s k = true ∨ k s = true) := by
  simp [mrun]

lemma toList_https : "https://".toList = "http".toList ++ ("s".toList ++ "://".toList) := by
  decide

lemma toList_http : "http://".toList = "http".toList ++ "://".toList := by
  decide

lemma mrun_scheme_iff (s : List Char) (k : List Char → Bool) :
    mrun schemeRE s k = true ↔
    ∃ pre r, (pre = "https://" ∨ pre = "http://") ∧
      s = pre.toList ++ r ∧ k r = true := by
  constructor
  · intro h
    have h1 : mrun (.lit "http".toList) s
        (fun r => mrun (.seq (.opt (.lit "s".toList)) (.lit "://".toList)) r k) = true := h
    rw [mrun_lit_iff] at h1
    obtain ⟨r1, rfl, h2⟩ := h1
    have h3 : mrun (.opt (.lit "s".toList)) r1
        (fun r2 => mrun (.lit "://".toList) r2 k) = true := h2
    rw [mrun_opt_iff] at h3
    rcases h3 with hs | hskip
    · rw [mrun_lit_iff] at hs
      obtain ⟨r2, rfl, h4⟩ := hs
      have h5 : mrun (.lit "://".toList) r2 k = true := h4
      rw [mrun_lit_iff] at h5
      obtain ⟨r3, rfl, hk⟩ := h5
      exact ⟨"https://", r3, Or.inl rfl, by simp [toList_https], hk⟩
    · have h5 : mrun (.lit "://".toList) r1 k = true := hskip
      rw [mrun_lit_iff] at h5
      obtain ⟨r3, rfl, hk⟩ := h5
      exact ⟨"http://", r3, Or.inr rfl, by simp [toList_http], hk⟩
  · rintro ⟨pre, r, hpre, rfl, hk⟩
    show mrun (.lit "http".toList) _ _ = true
    rw [mrun_lit_iff]
    rcases hpre with rfl | rfl
    · refine ⟨"s".toList ++ ("://".toList ++ r), by simp [toList_https], ?_⟩
      show mrun (.opt (.lit "s".toList)) _ _ = true
      rw [mrun_opt_iff]
      left
      rw [mrun_lit_iff]
      refine ⟨"://".toList ++ r, rfl, ?_⟩
      show mrun (.lit "://".toList) _ _ = true
      rw [mrun_lit_iff]
      exact ⟨r, rfl, hk⟩
    · refine ⟨"://".toList ++ r, by simp [toList_http], ?_⟩
      show mrun (.opt (.lit "s".toList)) _ _ = true
      rw [mrun_opt_iff]
      right
      show mrun (.lit "://".toList) _ _ = true
      rw [mrun_lit_iff]
      exact ⟨r, rfl, hk⟩

lemma mrun_ytPattern_iff (host : String) (s : List Char) :
    mrun (ytPattern host) s (fun _ => true) = true ↔
    ∃ pre www idc rest,
      pre ∈ (["https://", "http://", ""] : List String) ∧
      www ∈ (["www.", ""] : List String) ∧
      idc.length = 11 ∧ (∀ c ∈ idc, idChar c = true) ∧
      s = pre.toList ++ www.toList ++ host.toList ++ idc ++ rest := by
  have tail_iff : ∀ u : List Char,
      mrun (.seq (.lit host.toList) (.cls 11)) u (fun _ => true) = true ↔
      ∃ idc rest, idc.length = 11 ∧ (∀ c ∈ idc, idChar c = true) ∧
        u = host.toList ++ idc ++ rest := by
    intro u
    constructor
    · intro h
      have h1 : mrun (.lit host.toList) u
          (fun r => mrun (.cls 11) r (fun _ => true)) = true := h
      rw [mrun_lit_iff] at h1
      obtain ⟨r1, rfl, h2⟩ := h1
      have h3 : mrun (.cls 11) r1 (fun _ => true) = true := h2
      rw [mrun_cls_iff] at h3
      obtain ⟨idc, rest, hlen, hall, rfl, -⟩ := h3
      exact ⟨idc, rest, hlen, hall, by simp⟩
    · rintro ⟨idc, rest, hlen, hall, rfl⟩
      show mrun (.lit host.toList) _ _ = true
      rw [mrun_lit_iff]
      refine ⟨idc ++ rest, by simp, ?_⟩
      show mrun (.cls 11) _ _ = true
      rw [mrun_cls_iff]
      exact ⟨idc, rest, hlen, hall, rfl, rfl⟩
  have www_iff : ∀ u : List Char,
      mrun (.seq (.opt (.lit "www.".toList))
        (.seq (.lit host.toList) (.cls 11))) u (fun _ => true) = true ↔
      ∃ www idc rest, www ∈ (["www.", ""] : List String) ∧
        idc.length = 11 ∧ (∀ c ∈ idc, idChar c = true) ∧
        u = www.toList ++ host.toList ++ idc ++ rest := by
    intro u
    constructor
    · intro h
      have h1 : mrun (.opt (.lit "www.".toList)) u
          (fun r => mrun (.seq (.lit host.toList) (.cls 11)) r (fun _ => true)) = true := h
      rw [mrun_opt_iff] at h1
      rcases h1 with hw | hskip
      · rw [mrun_lit_iff] at hw
        obtain ⟨r1, rfl, h2⟩ := hw
        obtain ⟨idc, rest, hlen, hall, rfl⟩ := (tail_iff r1).mp h2
        exact ⟨"www.", idc, rest, by simp, hlen, hall, by simp⟩
      · obtain ⟨idc, rest, hlen, hall, rfl⟩ := (tail_iff u).mp hskip
        exact ⟨"", idc, rest, by simp, hlen, hall, by simp⟩
    · rintro ⟨www, idc, rest, hwww, hlen, hall, rfl⟩
      show mrun (.opt (.lit "www.".toList)) _ _ = true
      rw [mrun_opt_iff]
      rcases List.mem_cons.mp hwww with rfl | hwww
      · left
        rw [mrun_lit_iff]
        refine ⟨host.toList ++ idc ++ rest, by simp, ?_⟩
        exact (tail_iff _).mpr ⟨idc, rest, hlen, hall, rfl⟩
      · have : www = "" := by simpa using hwww
        subst this
        right
        exact (tail_iff _).mpr ⟨idc, rest, hlen, hall, by simp⟩
  constructor
  · intro h
    have h1 : mrun (.opt schemeRE) s
        (fun r => mrun (.seq (.opt (.lit "www.".toList))
          (.seq (.lit host.toList) (.cls 11))) r (fun _ => true)) = true := h
    rw [mrun_opt_iff] at h1
    rcases h1 with hs | hskip
    · rw [mrun_scheme_iff] at hs
      obtain ⟨pre, r, hpre, rfl, h2⟩ := hs
      obtain ⟨www, idc, rest, hwww, hlen, hall, rfl⟩ := (www_iff r).mp h2
      refine ⟨pre, www, idc, rest, ?_, hwww, hlen, hall, by simp⟩
      rcases hpre with rfl | rfl
      · simp
      · simp
    · obtain ⟨www, idc, rest, hwww, hlen, hall, rfl⟩ := (www_iff s).mp hskip
      exact ⟨"", www, idc, rest, by simp, hwww, hlen, hall, by simp⟩
  · rintro ⟨pre, www, idc, rest, hpre, hwww, hlen, hall, rfl⟩
    show mrun (.opt schemeRE) _ _ = true
    rw [mrun_opt_iff]
    have hbody : ∀ u : List Char, u = www.toList ++ host.toList ++ idc ++ rest →
        mrun (.seq (.opt (.lit "www.".toList))
          (.seq (.lit host.toList) (.cls 11))) u (fun _ => true) = true := by
      rintro u rfl
      exact (www_iff _).mpr ⟨www, idc, rest, hwww, hlen, hall, rfl⟩
    rcases List.mem_cons.mp hpre with rfl | hpre
    · left
      rw [mrun_scheme_iff]
      exact ⟨"https://", www.toList ++ host.toList ++ idc ++ rest,
        Or.inl rfl, by simp, hbody _ rfl⟩
    rcases List.mem_cons.mp hpre with rfl | hpre
    · left
      rw [mrun_scheme_iff]
      exact ⟨"http://", www.toList ++ host.toList ++ idc ++ rest,
        Or.inr rfl, by simp, hbody _ rfl⟩
    · have : pre = "" := by simpa using hpre
      subst this
      right
      exact hbody _ (by simp)

lemma validate_url_iff (s : String) : validate_url s = true ↔ SpecMatch s := by
  have hany : validate_url s = true ↔
      (mrun (ytPattern "youtube.com/watch?v=") s.toList (fun _ => true) = true ∨
       mrun (ytPattern "youtu.be/") s.toList (fun _ => true) = true ∨
       mrun (ytPattern "youtube.com/shorts/") s.toList (fun _ => true) = true ∨
       mrun (ytPattern "youtube.com/live/") s.toList (fun _ => true) = true) := by
    simp [validate_url, YOUTUBE_PATTERNS]
  rw [hany]
  constructor
  · rintro (h | h | h | h) <;>
    · obtain ⟨pre, www, idc, rest, hpre, hwww, hlen, hall, heq⟩ :=
        (mrun_ytPattern_iff _ _).mp h
      exact ⟨pre, www, _, idc, rest, hpre, hwww, by simp, hlen, hall, heq⟩
  · rintro ⟨pre, www, host, idc, rest, hpre, hwww, hhost, hlen, hall, heq⟩
    have hhost4 : host = "youtube.com/watch?v=" ∨ host = "youtu.be/" ∨
        host = "youtube.com/shorts/" ∨ host = "youtube.com/live/" := by
      simpa using hhost
    rcases hhost4 with rfl | rfl | rfl | rfl
    · exact Or.inl ((mrun_ytPattern_iff _ _).mpr
        ⟨pre, www, idc, rest, hpre, hwww, hlen, hall, heq⟩)
    · exact Or.inr (Or.inl ((mrun_ytPattern_iff _ _).mpr
        ⟨pre, www, idc, rest, hpre, hwww, hlen, hall, heq⟩))
    · exact Or.inr (Or.inr (Or.inl ((mrun_ytPattern_iff _ _).mpr
        ⟨pre, www, idc, rest, hpre, hwww, hlen, hall, heq⟩)))
    · exact Or.inr (Or.inr (Or.inr ((mrun_ytPattern_iff _ _).mpr
        ⟨pre, www, idc, rest, hpre, hwww, hlen, hall, heq⟩)))

/-- C7: `validate_url(url)` returns true iff one of the four fixed YouTube
patterns (watch, youtu.be, shorts, live, each with optional scheme and
optional `www.`) matches from the start of the string; in particular it
returns false for `https://vimeo.com/123456` and true for
`youtube.com/watch?v=dQw4w9WgXcQ`. -/
theorem validate_url_spec :
    (∀ s : String, validate_url s = true ↔ SpecMatch s) ∧
    validate_url "https://vimeo.com/123456" = false ∧
    validate_url "youtube.com/watch?v=dQw4w9WgXcQ" = true :=
  ⟨validate_url_iff, by decide, by decide⟩

/-! ### Case analysis of the results `download()` can return -/

lemma download_ret_cases (cfg : DownloadConfig) (url : String) (cb : Option Nat)
    (env : Env) (r : DownloadResult)
    (h : (download cfg url cb env).outcome = .ret r) :
    r = invalidUrlResult url ∨
    (∃ e, r = catchExn url e) ∨
    r = noInfoResult url ∨
    (∃ info, env.extractResult = .ok (some info) ∧
      r = overLimitResult url ((pyGet info.duration 0).getD 0)
        (cfg.max_duration.getD 0)) ∨
    r = notFoundResult url ∨
    (∃ fp info desc, env.extractResult = .ok (some info) ∧
      pyGet info.description "" = some desc ∧
      r = successResult url fp info desc) := by
  unfold download at h
  split at h
  · split at h
    · simp at h
    · split at h
      · next e heq =>
          simp at h
          exact Or.inr (Or.inl ⟨e, h.symm⟩)
      · simp at h
        exact Or.inr (Or.inr (Or.inl h.symm))
      · next info heq =>
          split at h
          · simp at h
            exact Or.inr (Or.inl ⟨cmpTypeError, h.symm⟩)
          · simp at h
            exact Or.inr (Or.inr (Or.inr (Or.inl ⟨info, heq, h.symm⟩)))
          · split at h
            · next e heq2 =>
                simp at h
                exact Or.inr (Or.inl ⟨e, h.symm⟩)
            · split at h
              · simp at h
                exact Or.inr (Or.inr (Or.inr (Or.inr (Or.inl h.symm))))
              · next fp heq3 =>
                  split at h
                  · simp at h
                    exact Or.inr (Or.inl ⟨sliceTypeError, h.symm⟩)
                  · next desc heq4 =>
                      simp at h
                      exact Or.inr (Or.inr (Or.inr (Or.inr (Or.inr
                        ⟨fp, info, desc, heq, heq4, h.symm⟩))))
  · simp at h
    exact Or.inl h.symm

lemma download_no_raise (cfg : DownloadConfig) (url : String) (cb : Option Nat)
    (env : Env) (hmk : env.mkdirError = none) :
    ∃ r, (download cfg url cb env).outcome = .ret r := by
  unfold download
  split
  · simp only [hmk]
    split
    · exact ⟨_, rfl⟩
    · exact ⟨_, rfl⟩
    · split
      · exact ⟨_, rfl⟩
      · exact ⟨_, rfl⟩
      · split
        · exact ⟨_, rfl⟩
        · split
          · exact ⟨_, rfl⟩
          · split
            · exact ⟨_, rfl⟩
            · exact ⟨_, rfl⟩
  · exact ⟨_, rfl⟩

lemma catchExn_success (url : String) (e : PyExn) :
    (catchExn url e).success = false ∧
    (catchExn url e).error_message = some ((if e.isDownloadError then
      "Download error: " else "Unexpected error: ") ++ e.msg) ∧
    (catchExn url e).file_path = none ∧ (catchExn url e).title = none ∧
    (catchExn url e).duration = none ∧
    (catchExn url e).source_url = some url := by
  unfold catchExn
  split <;> simp_all

/-! ### Claims C1, C3, C4, C10 -/

/-- C1 (amended): provided `output_dir.mkdir` (which the source places
before the `try` block) does not itself raise, `download()` never raises
past its boundary: the call returns a `DownloadResult`, and every failure
return carries an error message. -/
theorem no_raise_inside_try (cfg : DownloadConfig) (url : String)
    (cb : Option Nat) (env : Env) (hmk : env.mkdirError = none) :
    ∃ r, (download cfg url cb env).outcome = .ret r ∧
      (r.success = false → ∃ msg, r.error_message = some msg) := by
  obtain ⟨r, hr⟩ := download_no_raise cfg url cb env hmk
  refine ⟨r, hr, fun hs => ?_⟩
  rcases download_ret_cases cfg url cb env r hr with
    rfl | ⟨e, rfl⟩ | rfl | ⟨info, -, rfl⟩ | rfl | ⟨fp, info, desc, -, -, rfl⟩
  · exact ⟨_, rfl⟩
  · exact ⟨_, (catchExn_success url e).2.1⟩
  · exact ⟨_, rfl⟩
  · exact ⟨_, rfl⟩
  · exact ⟨_, rfl⟩
  · simp [successResult] at hs

theorem no_raise_witness :
    ∃ r, (download {} "z" none {}).outcome = .ret r ∧
      (r.success = false → ∃ msg, r.error_message = some msg) :=
  no_raise_inside_try {} "z" none {} rfl

/-- C1 counterexample: an exception raised by
`output_dir.mkdir(parents=True, exist_ok=True)` (youtube.py line 98, which
sits before the `try` of line 101) propagates past `download()` instead of
being converted into a failure `DownloadResult`. -/
theorem mkdir_escape_cex :
    (download {} "https://www.youtube.com/watch?v=dQw4w9WgXcQ" none
      { mkdirError := some { isDownloadError := false, msg := "Permission denied" } }).outcome =
    .raise { isDownloadError := false, msg := "Permission denied" } := rfl

/-- C3 (amended): every returned `DownloadResult` satisfies: on failure,
`error_message` is populated and the payload fields `file_path`, `title`
and `duration` are absent; on success, `file_path` is populated,
`error_message` is absent, and `title`/`duration` carry exactly what the
probe stored — the default (`"unknown"`, resp. 0) when the key was absent,
the stored value when present, but `None` when yt-dlp stored an explicit
`None` (as it does for a live stream's duration, reaching the success
path whenever `max_duration` is unset). -/
theorem result_pairing_amended (cfg : DownloadConfig) (url : String)
    (cb : Option Nat) (env : Env) (r : DownloadResult)
    (h : (download cfg url cb env).outcome = .ret r) :
    (r.success = true → r.file_path ≠ none ∧ r.error_message = none ∧
      ∃ info, env.extractResult = .ok (some info) ∧
        r.title = pyGet info.title "unknown" ∧
        r.duration = pyGet info.duration 0 ∧
        (info.title ≠ some none → r.title ≠ none) ∧
        (info.duration ≠ some none → r.duration ≠ none)) ∧
    (r.success = false → r.error_message ≠ none ∧ r.file_path = none ∧
      r.title = none ∧ r.duration = none) := by
  rcases download_ret_cases cfg url cb env r h with
    rfl | ⟨e, rfl⟩ | rfl | ⟨info, -, rfl⟩ | rfl | ⟨fp, info, desc, hex, -, rfl⟩
  · simp [invalidUrlResult]
  · obtain ⟨h1, h2, h3, h4, h5, -⟩ := catchExn_success url e
    simp [h1, h2, h3, h4, h5]
  · simp [noInfoResult]
  · simp [overLimitResult]
  · simp [notFoundResult]
  · refine ⟨fun _ => ⟨by simp [successResult], by simp [successResult],
      info, hex, rfl, rfl, ?_, ?_⟩, by simp [successResult]⟩
    · intro ht
      show pyGet info.title "unknown" ≠ none
      match hcase : info.title with
      | none => simp [pyGet]
      | some none => exact absurd hcase ht
      | some (some v) => simp [pyGet]
    · intro hd
      show pyGet info.duration 0 ≠ none
      match hcase : info.duration with
      | none => simp [pyGet]
      | some none => exact absurd hcase hd
      | some (some v) => simp [pyGet]

theorem result_pairing_witness :
    ((successResult "https://youtu.be/dQw4w9WgXcQ" "Me at the zoo.wav" infoW
        "").success = true →
      (successResult "https://youtu.be/dQw4w9WgXcQ" "Me at the zoo.wav" infoW
        "").file_path ≠ none ∧
      (successResult "https://youtu.be/dQw4w9WgXcQ" "Me at the zoo.wav" infoW
        "").error_message = none ∧
      ∃ info, envW.extractResult = .ok (some info) ∧
        (successResult "https://youtu.be/dQw4w9WgXcQ" "Me at the zoo.wav" infoW
          "").title = pyGet info.title "unknown" ∧
        (successResult "https://youtu.be/dQw4w9WgXcQ" "Me at the zoo.wav" infoW
          "").duration = pyGet info.duration 0 ∧
        (info.title ≠ some none →
          (successResult "https://youtu.be/dQw4w9WgXcQ" "Me at the zoo.wav"
            infoW "").title ≠ none) ∧
        (info.duration ≠ some none →
          (successResult "https://youtu.be/dQw4w9WgXcQ" "Me at the zoo.wav"
            infoW "").duration ≠ none)) ∧
    ((successResult "https://youtu.be/dQw4w9WgXcQ" "Me at the zoo.wav" infoW
        "").success = false →
      (successResult "https://youtu.be/dQw4w9WgXcQ" "Me at the zoo.wav" infoW
        "").error_message ≠ none ∧
      (successResult "https://youtu.be/dQw4w9WgXcQ" "Me at the zoo.wav" infoW
        "").file_path = none ∧
      (successResult "https://youtu.be/dQw4w9WgXcQ" "Me at the zoo.wav" infoW
        "").title = none ∧
      (successResult "https://youtu.be/dQw4w9WgXcQ" "Me at the zoo.wav" infoW
        "").duration = none) :=
  result_pairing_amended {} "https://youtu.be/dQw4w9WgXcQ" none envW
    (successResult "https://youtu.be/dQw4w9WgXcQ" "Me at the zoo.wav" infoW "")
    rfl

/-- C3 counterexample: a probe that stores `None` for `duration` and
`title` (a live stream) with `max_duration` unset reaches the success
path, and the returned result has `success = true` with the payload
fields `duration` and `title` absent — the claimed pairing fails. -/
theorem success_none_payload_cex :
    (download {} "youtube.com/watch?v=dQw4w9WgXcQ" none envLive).outcome =
      .ret (successResult "youtube.com/watch?v=dQw4w9WgXcQ" "live.wav"
        infoLive "") ∧
    (successResult "youtube.com/watch?v=dQw4w9WgXcQ" "live.wav" infoLive
      "").success = true ∧
    (successResult "youtube.com/watch?v=dQw4w9WgXcQ" "live.wav" infoLive
      "").duration = none ∧
    (successResult "youtube.com/watch?v=dQw4w9WgXcQ" "live.wav" infoLive
      "").title = none :=
  ⟨rfl, rfl, rfl, rfl⟩

/-- C4 (amended): `download()` stores the supplied callback into the field
`self._progress_callback` at entry and never clears it, so after the call
returns the instance still holds exactly that call's callback (it is
overwritten only when the next call begins). -/
theorem callback_field_after (cfg : DownloadConfig) (url : String)
    (cb : Option Nat) (env : Env) :
    (download cfg url cb env).callbackAfter = cb := by
  unfold download
  split
  · split
    · rfl
    · split
      · rfl
      · rfl
      · split
        · rfl
        · rfl
        · split
          · rfl
          · split
            · rfl
            · split
              · rfl
              · rfl
  · rfl

/-- C4 counterexample: after a `download()` call with a callback supplied
returns, the instance still references that callback — the claim that the
reference is held only for the duration of the call is false. -/
theorem callback_persisted_cex :
    (download {} "u" (some 7) {}).callbackAfter = some 7 ∧
    (download {} "u" (some 7) {}).callbackAfter ≠ none :=
  ⟨rfl, by decide⟩

/-- C10: every result `download()` returns, on the success path and on
every failure path including the invalid-URL fast-fail, carries
`source_url` equal to the `url` argument. -/
theorem source_url_spec (cfg : DownloadConfig) (url : String) (cb : Option Nat)
    (env : Env) (r : DownloadResult)
    (h : (download cfg url cb env).outcome = .ret r) :
    r.source_url = some url := by
  rcases download_ret_cases cfg url cb env r h with
    rfl | ⟨e, rfl⟩ | rfl | ⟨info, -, rfl⟩ | rfl | ⟨fp, info, desc, -, -, rfl⟩
  · rfl
  · exact (catchExn_success url e).2.2.2.2.2
  · rfl
  · rfl
  · rfl
  · rfl

theorem source_url_witness :
    (invalidUrlResult "y").source_url = some "y" :=
  source_url_spec {} "y" none {} (invalidUrlResult "y") rfl

/-! ### Claims C2 and C9: the duration gate -/

/-- C2: with `max_duration` set (to a positive value, as the spec's data
model requires) and a probed duration exceeding it, `download()` returns
failure whose message states both durations, and the transfer is never
started; with `max_duration = 1` and probed duration 19 the message
mentions both `19` and `1`. -/
theorem duration_gate_spec (cfg : DownloadConfig) (url : String)
    (cb : Option Nat) (env : Env) (info : VideoInfo) (m d : ℚ)
    (hv : validate_url url = true) (hmk : env.mkdirError = none)
    (hex : env.extractResult = .ok (some info))
    (hdur : pyGet info.duration 0 = some d)
    (hmax : cfg.max_duration = some m) (hpos : 0 < m) (hgt : m < d) :
    (download cfg url cb env).outcome = .ret (overLimitResult url d m) ∧
    (overLimitResult url d m).success = false ∧
    (overLimitResult url d m).error_message = some (durationMsg d m) ∧
    (download cfg url cb env).transferStarted = false ∧
    strHas (durationMsg 19 1) "19" = true ∧
    strHas (durationMsg 19 1) "1" = true := by
  have hgate : durationGate (some m) (some d) = .reject := by
    simp [durationGate, hpos.ne', hgt]
  refine ⟨?_, rfl, rfl, ?_, by decide, by decide⟩
  · unfold download
    simp [hv, hmk, hex, hmax, hdur, hgate]
  · unfold download
    simp [hv, hmk, hex, hmax, hdur, hgate]

theorem duration_gate_witness :
    (download { max_duration := some 1 } "youtube.com/watch?v=dQw4w9WgXcQ"
        none { extractResult := .ok (some { duration := some (some 19) }) }).outcome =
      .ret (overLimitResult "youtube.com/watch?v=dQw4w9WgXcQ" 19 1) ∧
    (overLimitResult "youtube.com/watch?v=dQw4w9WgXcQ" 19 1).success = false ∧
    (overLimitResult "youtube.com/watch?v=dQw4w9WgXcQ" 19 1).error_message =
      some (durationMsg 19 1) ∧
    (download { max_duration := some 1 } "youtube.com/watch?v=dQw4w9WgXcQ"
        none { extractResult := .ok (some { duration := some (some 19) }) }).transferStarted = false ∧
    strHas (durationMsg 19 1) "19" = true ∧
    strHas (durationMsg 19 1) "1" = true :=
  duration_gate_spec { max_duration := some 1 } "youtube.com/watch?v=dQw4w9WgXcQ"
    none { extractResult := .ok (some { duration := some (some 19) }) }
    { duration := some (some 19) } 1 19 (by decide) rfl rfl rfl rfl
    (by norm_num) (by norm_num)

/-- C9: when the probe's info mapping has no `duration` entry the code
treats the duration as 0: a positive `max_duration` never rejects, the
transfer is started, and a success result reports duration 0. -/
theorem missing_duration_spec (cfg : DownloadConfig) (url : String)
    (cb : Option Nat) (env : Env) (info : VideoInfo) (m : ℚ)
    (hv : validate_url url = true) (hmk : env.mkdirError = none)
    (hex : env.extractResult = .ok (some info)) (hdur : info.duration = none)
    (hmax : cfg.max_duration = some m) (hpos : 0 < m) :
    (download cfg url cb env).transferStarted = true ∧
    (∀ r, (download cfg url cb env).outcome = .ret r → r.success = true →
      r.duration = some 0) := by
  have hgate : durationGate cfg.max_duration (pyGet info.duration 0) = .pass := by
    have h0 : ¬ ((0 : ℚ) > m) := not_lt.mpr hpos.le
    simp [durationGate, hmax, hdur, pyGet, hpos.ne', h0]
  constructor
  · unfold download
    simp only [hv, if_true, hmk, hex, hgate]
    split
    · rfl
    · split
      · rfl
      · split
        · rfl
        · rfl
  · intro r h ht
    rcases download_ret_cases cfg url cb env r h with
      rfl | ⟨e, rfl⟩ | rfl | ⟨info2, -, rfl⟩ | rfl | ⟨fp, info2, desc, hex2, -, rfl⟩
    · simp [invalidUrlResult] at ht
    · have := (catchExn_success url e).1
      simp [this] at ht
    · simp [noInfoResult] at ht
    · simp [overLimitResult] at ht
    · simp [notFoundResult] at ht
    · have hinfo : info = info2 := by
        rw [hex] at hex2
        simpa using hex2
      subst hinfo
      simp [successResult, hdur, pyGet]

theorem missing_duration_witness :
    (download { max_duration := some 60 } "youtube.com/watch?v=dQw4w9WgXcQ"
        none { extractResult := .ok (some {}) }).transferStarted = true ∧
    (∀ r, (download { max_duration := some 60 } "youtube.com/watch?v=dQw4w9WgXcQ"
        none { extractResult := .ok (some {}) }).outcome = .ret r →
      r.success = true → r.duration = some 0) :=
  missing_duration_spec { max_duration := some 60 }
    "youtube.com/watch?v=dQw4w9WgXcQ" none
    { extractResult := .ok (some {}) } {} 60 (by decide) rfl rfl rfl rfl
    (by norm_num)

/-! ### Claims C5 and C6: the configuration object -/

/-- C5 (amended): a freshly constructed `DownloadConfig` has the
transcription-tuned defaults (wav, 16000 Hz, mono), but instances are not
immutable: the dataclass is declared without `frozen=True`, so field
assignment after construction is permitted. -/
theorem config_defaults_spec :
    ({} : DownloadConfig).audio_format = AudioFormat.wav ∧
    ({} : DownloadConfig).sample_rate = some 16000 ∧
    ({} : DownloadConfig).mono = true ∧
    DownloadConfig.dataclassFrozen = false :=
  ⟨rfl, rfl, rfl, rfl⟩

/-- C5 counterexample: the immutability half of the claim fails — the
dataclass is not frozen, and assigning `sample_rate` on a freshly
constructed instance observably changes it. -/
theorem config_mutability_cex :
    DownloadConfig.dataclassFrozen = false ∧
    (DownloadConfig.assignSampleRate {} (some 8000)).sample_rate ≠
      ({} : DownloadConfig).sample_rate :=
  ⟨rfl, by decide⟩

/-- C6: `to_yt_dlp_opts` is a pure function of the config's fields
(calling it twice on the same config yields equal structures); with
`sample_rate` set (positive, as the spec's data model requires) the
post-processing arguments contain `-ar <rate>`, with `mono` they contain
`-ac 1`, with `-ar` before `-ac` when both are present; and changing only
`sample_rate`/`mono` leaves every other field of the options unchanged. -/
theorem to_yt_dlp_opts_spec (c : DownloadConfig) (r : Nat) (sr : Option Nat)
    (m : Bool) :
    c.to_yt_dlp_opts = c.to_yt_dlp_opts ∧
    (c.sample_rate = some r → 0 < r → c.mono = true →
      c.to_yt_dlp_opts.postprocessor_args =
        some ["-ar", toString r, "-ac", "1"]) ∧
    (c.sample_rate = some r → 0 < r → c.mono = false →
      c.to_yt_dlp_opts.postprocessor_args = some ["-ar", toString r]) ∧
    (c.sample_rate = none → c.mono = true →
      c.to_yt_dlp_opts.postprocessor_args = some ["-ac", "1"]) ∧
    ({ c with sample_rate := sr, mono := m } :
        DownloadConfig).to_yt_dlp_opts.framePart = c.to_yt_dlp_opts.framePart := by
  refine ⟨rfl, ?_, ?_, ?_, ?_⟩
  · intro hs hr hm
    simp [DownloadConfig.to_yt_dlp_opts, hs, hm, truthyNat, hr.ne']
  · intro hs hr hm
    simp [DownloadConfig.to_yt_dlp_opts, hs, hm, truthyNat, hr.ne']
  · intro hs hm
    simp [DownloadConfig.to_yt_dlp_opts, hs, hm, truthyNat]
  · simp [DownloadConfig.to_yt_dlp_opts, YdlOpts.framePart]

/-! ### Claim C8: progress reports -/

lemma progressHook_range (d : HookDict) (hd : HookSane d) (p : ℚ) (s : String)
    (h : progressHook d = some (p, s)) : 5 ≤ p ∧ p ≤ 90 := by
  unfold progressHook at h
  split at h
  · split at h
    · next htot =>
        obtain ⟨h0, h1⟩ := hd
        simp only [Option.some.injEq, Prod.mk.injEq] at h
        obtain ⟨hp, -⟩ := h
        subst hp
        have hdiv0 : 0 ≤ d.downloaded_bytes.getD 0 / hookTotal d :=
          div_nonneg h0 (le_of_lt htot)
        have hdiv1 : d.downloaded_bytes.getD 0 / hookTotal d ≤ 1 :=
          (div_le_one htot).mpr h1
        constructor <;> nlinarith
    · cases h
  · split at h
    · simp only [Option.some.injEq, Prod.mk.injEq] at h
      obtain ⟨hp, -⟩ := h
      subst hp
      norm_num
    · cases h

lemma transferReports_range (env : Env)
    (hs : ∀ d ∈ env.hookEvents, HookSane d) (p : ℚ) (s : String)
    (h : (p, s) ∈ transferReports env) : 0 ≤ p ∧ p ≤ 100 := by
  unfold transferReports at h
  simp only [List.cons_append, List.nil_append, List.mem_cons,
    List.mem_filterMap, Prod.mk.injEq] at h
  rcases h with ⟨hp, -⟩ | ⟨hp, -⟩ | ⟨d, hd, hph⟩
  · subst hp
    norm_num
  · subst hp
    norm_num
  · have := progressHook_range d (hs d hd) p s hph
    constructor <;> linarith [this.1, this.2]

lemma download_success_reports (cfg : DownloadConfig) (url : String)
    (cb : Option Nat) (env : Env) (r : DownloadResult)
    (h : (download cfg url cb env).outcome = .ret r) (hsucc : r.success = true) :
    (download cfg url cb env).reports =
      reportIfSet cb (transferReports env ++ [(100, "Download complete!")]) := by
  cases hval : validate_url url with
  | false =>
    simp only [download, hval, Bool.false_eq_true, if_false] at h
    simp only [Outcome.ret.injEq] at h
    rw [← h] at hsucc
    simp [invalidUrlResult] at hsucc
  | true =>
    cases hmkv : env.mkdirError with
    | some e =>
      simp only [download, hval, hmkv, if_true] at h
      simp at h
    | none =>
      cases hexv : env.extractResult with
      | error e =>
        simp only [download, hval, hmkv, hexv, if_true] at h
        simp only [Outcome.ret.injEq] at h
        rw [← h] at hsucc
        simp [(catchExn_success url e).1] at hsucc
      | ok oi =>
        cases oi with
        | none =>
          simp only [download, hval, hmkv, hexv, if_true] at h
          simp only [Outcome.ret.injEq] at h
          rw [← h] at hsucc
          simp [noInfoResult] at hsucc
        | some info =>
          cases hgate : durationGate cfg.max_duration (pyGet info.duration 0) with
          | typeError =>
            simp only [download, hval, hmkv, hexv, hgate, if_true] at h
            simp only [Outcome.ret.injEq] at h
            rw [← h] at hsucc
            simp [(catchExn_success url cmpTypeError).1] at hsucc
          | reject =>
            simp only [download, hval, hmkv, hexv, hgate, if_true] at h
            simp only [Outcome.ret.injEq] at h
            rw [← h] at hsucc
            simp [overLimitResult] at hsucc
          | pass =>
            cases htrv : env.transferError with
            | some e =>
              simp only [download, hval, hmkv, hexv, hgate, if_true, htrv] at h
              simp only [Outcome.ret.injEq] at h
              rw [← h] at hsucc
              simp [(catchExn_success url e).1] at hsucc
            | none =>
              cases hfp : (if env.expectedExists = true then
                  some (rsplitStem env.preparedFilename ++ "." ++
                    cfg.audio_format.ext)
                else env.newestMatching) with
              | none =>
                simp only [download, hval, hmkv, hexv, hgate, if_true,
                  htrv, hfp] at h
                simp only [Outcome.ret.injEq] at h
                rw [← h] at hsucc
                simp [notFoundResult] at hsucc
              | some fp =>
                cases hdesc : pyGet info.description "" with
                | none =>
                  simp only [download, hval, hmkv, hexv, hgate, if_true,
                    htrv, hfp, hdesc]
                | some desc =>
                  simp only [download, hval, hmkv, hexv, hgate, if_true,
                    htrv, hfp, hdesc]

lemma download_reports_cases (cfg : DownloadConfig) (url : String)
    (cb : Option Nat) (env : Env) :
    (download cfg url cb env).reports = [] ∨
    (download cfg url cb env).reports = reportIfSet cb preTransferReports ∨
    (download cfg url cb env).reports = reportIfSet cb (transferReports env) ∨
    (download cfg url cb env).reports =
      reportIfSet cb (transferReports env ++ [(100, "Download complete!")]) := by
  unfold download
  split
  · split
    · exact Or.inl rfl
    · split
      · exact Or.inr (Or.inl rfl)
      · exact Or.inr (Or.inl rfl)
      · split
        · exact Or.inr (Or.inl rfl)
        · exact Or.inr (Or.inl rfl)
        · split
          · exact Or.inr (Or.inr (Or.inl rfl))
          · split
            · exact Or.inr (Or.inr (Or.inl rfl))
            · split
              · exact Or.inr (Or.inr (Or.inr rfl))
              · exact Or.inr (Or.inr (Or.inr rfl))
  · exact Or.inl rfl

/-- C8 (amended): when every hook event the external tool fires carries
consistent byte counts (downloaded between 0 and the denominated total —
true of exact totals, not guaranteed for estimates), every callback
invocation of a `download()` call passes a progress in [0, 100]; the
byte-transfer reports are scaled into [5, 90], a `finished` hook reports
the fixed 90, and a success reports 100. -/
theorem progress_range_spec (cfg : DownloadConfig) (url : String) (k : Nat)
    (env : Env) (hs : ∀ d ∈ env.hookEvents, HookSane d) :
    (∀ p s, (p, s) ∈ (download cfg url (some k) env).reports →
      0 ≤ p ∧ p ≤ 100) ∧
    (∀ d, HookSane d → d.status = "downloading" → ∀ p s,
      progressHook d = some (p, s) → 5 ≤ p ∧ p ≤ 90) ∧
    (∀ d : HookDict, d.status = "finished" →
      progressHook d = some (90, "Converting audio...")) ∧
    (∀ r, (download cfg url (some k) env).outcome = .ret r →
      r.success = true →
      ((100 : ℚ), "Download complete!") ∈ (download cfg url (some k) env).reports) := by
  refine ⟨?_, ?_, ?_, ?_⟩
  · intro p s h
    rcases download_reports_cases cfg url (some k) env with heq | heq | heq | heq <;>
      rw [heq] at h
    · cases h
    · simp only [reportIfSet, Option.isSome_some, if_true, preTransferReports,
        List.mem_singleton, Prod.mk.injEq] at h
      obtain ⟨hp, -⟩ := h
      subst hp
      norm_num
    · simp only [reportIfSet, Option.isSome_some, if_true] at h
      exact transferReports_range env hs p s h
    · simp only [reportIfSet, Option.isSome_some, if_true,
        List.mem_append, List.mem_singleton, Prod.mk.injEq] at h
      rcases h with h | ⟨hp, -⟩
      · exact transferReports_range env hs p s h
      · subst hp
        norm_num
  · intro d hd _ p s hph
    exact progressHook_range d hd p s hph
  · intro d hfin
    unfold progressHook
    rw [hfin]
    simp
  · intro r hr ht
    rw [download_success_reports cfg url (some k) env r hr ht]
    simp [reportIfSet]

theorem progress_range_witness :
    (∀ p s, (p, s) ∈ (download {} "youtube.com/watch?v=dQw4w9WgXcQ" (some 1)
      envHook).reports → 0 ≤ p ∧ p ≤ 100) ∧
    (∀ d, HookSane d → d.status = "downloading" → ∀ p s,
      progressHook d = some (p, s) → 5 ≤ p ∧ p ≤ 90) ∧
    (∀ d : HookDict, d.status = "finished" →
      progressHook d = some (90, "Converting audio...")) ∧
    (∀ r, (download {} "youtube.com/watch?v=dQw4w9WgXcQ" (some 1)
        envHook).outcome = .ret r → r.success = true →
      ((100 : ℚ), "Download complete!") ∈
        (download {} "youtube.com/watch?v=dQw4w9WgXcQ" (some 1)
          envHook).reports) :=
  progress_range_spec {} "youtube.com/watch?v=dQw4w9WgXcQ" 1 envHook
    (by norm_num [envHook, HookSane, hookHalf, hookTotal])

/-- C8 counterexample: when yt-dlp reports more downloaded bytes than its
(estimated) total — `total_bytes = 1`, `downloaded_bytes = 2` — the hook
relays progress `5 + (2/1)*85 = 175`, outside [0, 100], to the callback. -/
theorem progress_overshoot_cex :
    ∃ p s, (p, s) ∈
      (download {} "youtube.com/watch?v=dQw4w9WgXcQ" (some 0) envOver).reports ∧
    ¬ (0 ≤ p ∧ p ≤ 100) := by
  have hv : validate_url "youtube.com/watch?v=dQw4w9WgXcQ" = true := by decide
  have hph : progressHook hookOver = some (175, "Downloading... ...") := by
    have h1 : hookTotal hookOver = 1 := by norm_num [hookTotal, hookOver]
    have hstr : "Downloading... " ++ "..." = "Downloading... ..." := rfl
    unfold progressHook
    rw [h1]
    norm_num [hookOver, hstr]
  refine ⟨175, "Downloading... ...", ?_, by norm_num⟩
  have hreports : (download {} "youtube.com/watch?v=dQw4w9WgXcQ" (some 0)
      envOver).reports = reportIfSet (some 0) (transferReports envOver) := by
    simp only [download, hv, if_true]
    simp [envOver, durationGate]
  rw [hreports]
  simp only [reportIfSet, Option.isSome_some, if_true, transferReports]
  simp only [envOver, List.filterMap_cons, List.filterMap_nil, hph]
  simp

end PAKE
